import Mathlib

/-!
# GPU Camera Stream (`camera/gcs.c`): frame slot, buffer recycling, watchdog

A shallow embedding of the stream object of `camera/gcs.c` and of the functions
that act on its frame slot: `gcs_start`, `gcs_stop`, `gcs_hasFrameBuffer`,
`gcs_requestFrameBuffer`, `gcs_returnFrameBuffer`, `gcs_onCameraOutput` and
`gcs_onWatchdogTrigger`.

Conventions of the embedding:

* a pointer to a buffer header is the header's address, a `Nat`; a nullable
  pointer is an `Option`, with `none` for `NULL`;
* the `uint8_t` flags `started` and `error` are `Nat`s, tested against `0` as
  the C code does;
* the VCOS mutex is its locked bit, the VCOS timer is the delay it is running
  with (`none` when it is not running);
* every call of `mmal_buffer_header_release` is recorded, in order, in the field
  `released`, and puts the header on the queue of the buffer pool;
* a call that waits in `vcos_mutex_lock` has no result in the state it is made
  in: `gcs_requestFrameBuffer` returns `none` there.
-/

namespace VC6CV

/-! ## Constants -/

/-- Watchdog timeout: elapsed time to allow for no video frames received. -/
def GCS_WATCHDOG_TIMEOUT_MS : Nat := 4000

/-- How many buffers the camera has to work with. -/
def GCS_SIMUL_BUFFERS : Nat := 4

/-! ## Data model -/

/-- The part of a buffer header that the output callback reads: the address of
the header (what the pointer `buffer` is), `buffer->length` and `buffer->data`. -/
structure MMAL_BUFFER_HEADER_T where
  addr : Nat
  length : Nat
  data : Option Nat
deriving DecidableEq, Repr

/-- The stream object `struct GCS`, with the fields the functions below read and
write, and the state of the collaborators they call (buffer pool queue, camera
output port, libcamera camera), plus the record `released` of the release calls. -/
structure GCS where
  /-- Flag `started`: specifies that the stream has started. -/
  started : Nat
  /-- Flag `error`. -/
  error : Nat
  /-- Timer `watchdogTimer`: the delay it was set with, `none` when cancelled. -/
  watchdogTimer : Option Nat
  /-- Mutex `frameReadyMutex`: `true` when locked. -/
  frameReadyMutex : Bool
  /-- Pointer `curFrameBuffer`: most recent camera frame buffer. -/
  curFrameBuffer : Option Nat
  /-- Pointer `processingFrameBuffer`: frame buffer handed to the user. -/
  processingFrameBuffer : Option Nat
  /-- Queue `bufferPool->queue`: released headers waiting in the pool. -/
  bufferPoolQueue : List Nat
  /-- Port `cameraOutput`: whether it is enabled. -/
  cameraOutputEnabled : Bool
  /-- Port `cameraOutput`: headers passed to `mmal_port_send_buffer`, in order. -/
  portBuffers : List Nat
  /-- Every header passed to `mmal_buffer_header_release`, in order. -/
  released : List Nat
  /-- Whether `camera->start()` has been called. -/
  cameraRunning : Bool
  /-- The capture requests built by `gcs_create`. -/
  requests : List Nat
  /-- The requests passed to `camera->queueRequest`, in order. -/
  queuedRequests : List Nat
deriving DecidableEq, Repr

/-! ## Platform calls -/

/-- Call `vcos_mutex_lock`: waits while the mutex is locked (no result), locks it
otherwise. -/
def vcos_mutex_lock (locked : Bool) : Option Bool :=
  if locked then none else some true

/-- Call `vcos_mutex_trylock`: locks the mutex if it is free, never waits; the
mutex is locked afterwards either way. -/
def vcos_mutex_trylock (_locked : Bool) : Bool := true

/-- Call `vcos_mutex_is_locked`. -/
def vcos_mutex_is_locked (locked : Bool) : Bool := locked

/-- Call `vcos_mutex_unlock`. -/
def vcos_mutex_unlock (_locked : Bool) : Bool := false

/-- Call `vcos_timer_set`: (re)starts the timer with the given delay. -/
def vcos_timer_set (_timer : Option Nat) (delayMs : Nat) : Option Nat := some delayMs

/-- Call `vcos_timer_cancel`. -/
def vcos_timer_cancel (_timer : Option Nat) : Option Nat := none

/-- Call `mmal_buffer_header_release`: the header goes back to the queue of the
pool; the call is recorded in `released`. -/
def mmal_buffer_header_release (gcs : GCS) (buffer : Nat) : GCS :=
  { gcs with
    released := gcs.released ++ [buffer]
    bufferPoolQueue := gcs.bufferPoolQueue ++ [buffer] }

/-- The loop `while ((buffer = mmal_queue_get(queue)) != NULL)
mmal_port_send_buffer(port, buffer)`: takes the headers off the queue one by one
and passes each to the port (a failed send is only logged). Returns the port
record after the loop; the queue is empty then. -/
def sendPoolBuffers : List Nat → List Nat → List Nat
  | [], port => port
  | buffer :: queue, port => sendPoolBuffers queue (port ++ [buffer])

/-! ## The functions of `gcs.c` -/

/-- Function `gcs_start`: starts the camera and queues every request; returns 0.
It writes no field of the stream object. -/
def gcs_start (gcs : GCS) : Nat × GCS :=
  (0, { gcs with
        cameraRunning := true
        queuedRequests := gcs.queuedRequests ++ gcs.requests })

/-- Function `gcs_stop`. The flag `started` is cleared before it is tested, so
the guarded block is kept here exactly as written. -/
def gcs_stop (gcs : GCS) : GCS :=
  let gcs := { gcs with started := 0 }
  -- Stop running timers
  let gcs := { gcs with watchdogTimer := vcos_timer_cancel gcs.watchdogTimer }
  if gcs.started ≠ 0 then
    -- Disable camera output
    let gcs := { gcs with cameraOutputEnabled := false }
    -- Stop potentially waiting user
    let gcs :=
      if vcos_mutex_is_locked gcs.frameReadyMutex then
        { gcs with frameReadyMutex := vcos_mutex_unlock gcs.frameReadyMutex }
      else gcs
    -- Reset unused frames
    let gcs :=
      match gcs.processingFrameBuffer with
      | some p => { mmal_buffer_header_release gcs p with processingFrameBuffer := none }
      | none => gcs
    match gcs.curFrameBuffer with
    | some c => { mmal_buffer_header_release gcs c with curFrameBuffer := none }
    | none => gcs
  else gcs

/-- Function `gcs_hasFrameBuffer`: whether there is a new camera frame. -/
def gcs_hasFrameBuffer (gcs : GCS) : Bool :=
  gcs.curFrameBuffer.isSome

/-- Function `gcs_requestFrameBuffer`. The result is `none` when the call waits in
`vcos_mutex_lock`; otherwise it is the returned pointer (`none` for `NULL`) and
the state the call leaves. -/
def gcs_requestFrameBuffer (gcs : GCS) : Option (Option Nat × GCS) :=
  match vcos_mutex_lock gcs.frameReadyMutex with
  | none => none
  | some locked =>
    let gcs := { gcs with frameReadyMutex := locked }
    if gcs.processingFrameBuffer.isSome then
      -- Not cleaned up last frame
      some (none, gcs)
    else
      let gcs := { gcs with processingFrameBuffer := gcs.curFrameBuffer }
      let gcs := { gcs with curFrameBuffer := none }
      if gcs.processingFrameBuffer.isNone then
        -- No current frame buffer
        some (none, gcs)
      else
        some (gcs.processingFrameBuffer, gcs)

/-- Function `gcs_returnFrameBuffer`. -/
def gcs_returnFrameBuffer (gcs : GCS) : GCS :=
  match gcs.processingFrameBuffer with
  | some p => { mmal_buffer_header_release gcs p with processingFrameBuffer := none }
  | none => gcs

/-- Function `gcs_onCameraOutput`: callback from the camera output port, receives a
buffer and replaces the current one. -/
def gcs_onCameraOutput (gcs : GCS) (buffer : MMAL_BUFFER_HEADER_T) : GCS :=
  let gcs :=
    if buffer.length = 0 then
      mmal_buffer_header_release gcs buffer.addr
    else if buffer.data.isNone then
      mmal_buffer_header_release gcs buffer.addr
    else if gcs.started = 0 then
      mmal_buffer_header_release gcs buffer.addr
    else
      -- Reset watchdog timer for detecting when frames stop coming
      let gcs := { gcs with
        watchdogTimer := vcos_timer_set gcs.watchdogTimer GCS_WATCHDOG_TIMEOUT_MS }
      -- Retract frame ready signal during switch
      let gcs := { gcs with frameReadyMutex := vcos_mutex_trylock gcs.frameReadyMutex }
      -- Release now outdated camera frame
      let gcs :=
        match gcs.curFrameBuffer with
        | some c => { mmal_buffer_header_release gcs c with curFrameBuffer := none }
        | none => gcs
      -- Set the newest camera frame
      let gcs := { gcs with curFrameBuffer := some buffer.addr }
      -- Send buffers back to the port for use
      { gcs with
        portBuffers := sendPoolBuffers gcs.bufferPoolQueue gcs.portBuffers
        bufferPoolQueue := [] }
  -- If not done already signal that a frame is ready
  if vcos_mutex_is_locked gcs.frameReadyMutex then
    { gcs with frameReadyMutex := vcos_mutex_unlock gcs.frameReadyMutex }
  else gcs

/-- Function `gcs_onWatchdogTrigger`: watchdog timer callback. -/
def gcs_onWatchdogTrigger (gcs : GCS) : GCS :=
  gcs_stop gcs

/-! ## Sequences of calls -/

/-- A run of completions: `gcs_onCameraOutput` called once per header, in order. -/
def deliver (gcs : GCS) (buffers : List MMAL_BUFFER_HEADER_T) : GCS :=
  buffers.foldl gcs_onCameraOutput gcs

/-- One call on the stream: a completion delivered to `gcs_onCameraOutput`, or
one of `gcs_requestFrameBuffer`, `gcs_returnFrameBuffer`, `gcs_stop`. -/
inductive Op where
  | onCameraOutput (buffer : MMAL_BUFFER_HEADER_T)
  | requestFrameBuffer
  | returnFrameBuffer
  | stop
deriving DecidableEq, Repr

/-- The state after one call. A request that waits on the mutex has had no
effect yet. -/
def step (gcs : GCS) : Op → GCS
  | .onCameraOutput buffer => gcs_onCameraOutput gcs buffer
  | .requestFrameBuffer =>
    match gcs_requestFrameBuffer gcs with
    | some (_, gcs2) => gcs2
    | none => gcs
  | .returnFrameBuffer => gcs_returnFrameBuffer gcs
  | .stop => gcs_stop gcs

/-- The state after a sequence of calls. -/
def run (gcs : GCS) (ops : List Op) : GCS :=
  ops.foldl step gcs

/-- Whether `gcs_requestFrameBuffer` hands out a frame in this state. -/
def requestSucceeds (gcs : GCS) : Bool :=
  match gcs_requestFrameBuffer gcs with
  | some (some _, _) => true
  | _ => false

/-- No request of the sequence, made from the given state on, hands out a frame. -/
def noSuccessfulRequest : GCS → List Op → Bool
  | _, [] => true
  | gcs, op :: ops =>
    !(op == Op.requestFrameBuffer && requestSucceeds gcs) &&
      noSuccessfulRequest (step gcs op) ops

/-- How many of the two slot pointers refer to the header `b`. -/
def held (gcs : GCS) (b : Nat) : Nat :=
  (if gcs.curFrameBuffer = some b then 1 else 0) +
    (if gcs.processingFrameBuffer = some b then 1 else 0)

/-- The two slot pointers do not refer to the same header. -/
def slotDistinct (gcs : GCS) : Prop :=
  gcs.curFrameBuffer = none ∨ gcs.curFrameBuffer ≠ gcs.processingFrameBuffer

instance (gcs : GCS) : Decidable (slotDistinct gcs) := by
  unfold slotDistinct; infer_instance

/-- The headers delivered to `gcs_onCameraOutput` by a sequence of calls. -/
def delivered : List Op → List Nat
  | [] => []
  | .onCameraOutput buffer :: ops => buffer.addr :: delivered ops
  | _ :: ops => delivered ops

/-- Every completion of the sequence, made from the given state on, delivers a
header that the stream does not hold at that moment. -/
def deliveriesNotHeld : GCS → List Op → Bool
  | _, [] => true
  | gcs, op :: ops =>
    (match op with
      | .onCameraOutput buffer => decide (held gcs buffer.addr = 0)
      | _ => true) &&
      deliveriesNotHeld (step gcs op) ops

/-! ## Sample states -/

/-- The stream object as it is after `gcs_create` built one request per allocated
buffer. `gcs_create` writes neither flag, so their values are parameters; the
frame slot is empty, the mutex free, the timer not running. -/
def createdStream (started error nBuffers : Nat) : GCS :=
  { started := started
    error := error
    watchdogTimer := none
    frameReadyMutex := false
    curFrameBuffer := none
    processingFrameBuffer := none
    bufferPoolQueue := []
    cameraOutputEnabled := true
    portBuffers := []
    released := []
    cameraRunning := false
    requests := List.range nBuffers
    queuedRequests := [] }

/-- A started stream with an empty frame slot. -/
def startedStream : GCS := createdStream 1 0 GCS_SIMUL_BUFFERS

/-- A filled frame of a 1920x1080 YUV420 stream in the header at address `addr`. -/
def frame (addr : Nat) : MMAL_BUFFER_HEADER_T :=
  { addr := addr, length := 3110400, data := some (4096 * (addr + 1)) }

/-- A started stream whose slot holds header 1 as current frame and header 2 as
the frame handed to the user. -/
def slotHeld : GCS :=
  { startedStream with curFrameBuffer := some 1, processingFrameBuffer := some 2 }

/-- A started stream with an empty slot on which a user waits for the next frame:
`frameReadyMutex` is locked. -/
def userWaiting : GCS :=
  { startedStream with frameReadyMutex := true }

/-- A started stream that has handed header 1 to the user and has had no frame
since: `frameReadyMutex` is still locked by that request. -/
def frameCheckedOut : GCS :=
  { startedStream with processingFrameBuffer := some 1, frameReadyMutex := true }

/-! ## Basic facts about the functions -/

/-- What `gcs_stop` does: it clears `started` and cancels the watchdog; the block
guarded by `started` never runs. -/
theorem gcs_stop_eq (gcs : GCS) :
    gcs_stop gcs = { gcs with started := 0, watchdogTimer := none } := by
  simp [gcs_stop, vcos_timer_cancel]

/-- What an accepted completion does to the stream. -/
theorem gcs_onCameraOutput_accepted (gcs : GCS) (buffer : MMAL_BUFFER_HEADER_T)
    (hs : gcs.started ≠ 0) (hl : buffer.length ≠ 0) (hd : buffer.data ≠ none) :
    gcs_onCameraOutput gcs buffer =
      { gcs with
        watchdogTimer := some GCS_WATCHDOG_TIMEOUT_MS
        frameReadyMutex := false
        curFrameBuffer := some buffer.addr
        released := gcs.released ++ gcs.curFrameBuffer.toList
        bufferPoolQueue := []
        portBuffers :=
          sendPoolBuffers (gcs.bufferPoolQueue ++ gcs.curFrameBuffer.toList) gcs.portBuffers } := by
  have hd2 : buffer.data.isNone = false := by
    cases h : buffer.data with
    | none => exact absurd h hd
    | some d => rfl
  cases hc : gcs.curFrameBuffer <;>
    simp [gcs_onCameraOutput, hs, hl, hd2, hc, vcos_timer_set, vcos_mutex_trylock,
      vcos_mutex_is_locked, vcos_mutex_unlock, mmal_buffer_header_release]

/-- What a rejected completion does to the stream. -/
theorem gcs_onCameraOutput_rejected (gcs : GCS) (buffer : MMAL_BUFFER_HEADER_T)
    (h : buffer.length = 0 ∨ buffer.data = none ∨ gcs.started = 0) :
    gcs_onCameraOutput gcs buffer =
      { gcs with
        frameReadyMutex := false
        released := gcs.released ++ [buffer.addr]
        bufferPoolQueue := gcs.bufferPoolQueue ++ [buffer.addr] } := by
  unfold gcs_onCameraOutput
  rcases h with h | h | h
  · cases hm : gcs.frameReadyMutex <;>
      simp [h, hm, vcos_mutex_is_locked, vcos_mutex_unlock, mmal_buffer_header_release]
  · by_cases hl : buffer.length = 0
    · cases hm : gcs.frameReadyMutex <;>
        simp [hl, hm, vcos_mutex_is_locked, vcos_mutex_unlock, mmal_buffer_header_release]
    · cases hm : gcs.frameReadyMutex <;>
        simp [h, hl, hm, vcos_mutex_is_locked, vcos_mutex_unlock, mmal_buffer_header_release]
  · by_cases hl : buffer.length = 0
    · cases hm : gcs.frameReadyMutex <;>
        simp [hl, hm, vcos_mutex_is_locked, vcos_mutex_unlock, mmal_buffer_header_release]
    · cases hd : buffer.data <;> cases hm : gcs.frameReadyMutex <;>
        simp [h, hl, hd, hm, vcos_mutex_is_locked, vcos_mutex_unlock,
          mmal_buffer_header_release]

/-- A request on a free mutex with nothing checked out and a current frame hands
that frame out. -/
theorem gcs_requestFrameBuffer_frame (gcs : GCS) (c : Nat)
    (hm : gcs.frameReadyMutex = false) (hp : gcs.processingFrameBuffer = none)
    (hc : gcs.curFrameBuffer = some c) :
    gcs_requestFrameBuffer gcs =
      some (some c, { gcs with
        frameReadyMutex := true
        processingFrameBuffer := some c
        curFrameBuffer := none }) := by
  simp [gcs_requestFrameBuffer, vcos_mutex_lock, hm, hp, hc]

/-- State after a run of accepted completions that ends with `last`. -/
theorem deliver_accepted (init : List MMAL_BUFFER_HEADER_T) (last : MMAL_BUFFER_HEADER_T) :
    ∀ gcs : GCS, gcs.started ≠ 0 →
      (∀ b ∈ init ++ [last], b.length ≠ 0 ∧ b.data ≠ none) →
      (deliver gcs (init ++ [last])).curFrameBuffer = some last.addr ∧
      (deliver gcs (init ++ [last])).processingFrameBuffer = gcs.processingFrameBuffer ∧
      (deliver gcs (init ++ [last])).frameReadyMutex = false ∧
      (deliver gcs (init ++ [last])).released =
        gcs.released ++ (gcs.curFrameBuffer.toList ++ init.map (·.addr)) := by
  induction init with
  | nil =>
    intro gcs hs hv
    have hl := hv last (by simp)
    simp only [deliver, List.nil_append, List.foldl_cons, List.foldl_nil]
    rw [gcs_onCameraOutput_accepted gcs last hs hl.1 hl.2]
    simp
  | cons b rest ih =>
    intro gcs hs hv
    have hb := hv b (by simp)
    have hrest : ∀ c ∈ rest ++ [last], c.length ≠ 0 ∧ c.data ≠ none := by
      intro c hc
      exact hv c (by simp only [List.cons_append, List.mem_cons]; exact Or.inr hc)
    have hstep : deliver gcs (b :: rest ++ [last]) =
        deliver (gcs_onCameraOutput gcs b) (rest ++ [last]) := by
      simp [deliver]
    rw [hstep]
    have hacc := gcs_onCameraOutput_accepted gcs b hs hb.1 hb.2
    have hs1 : (gcs_onCameraOutput gcs b).started ≠ 0 := by rw [hacc]; exact hs
    obtain ⟨h1, h2, h3, h4⟩ := ih (gcs_onCameraOutput gcs b) hs1 hrest
    refine ⟨h1, ?_, h3, ?_⟩
    · rw [h2, hacc]
    · rw [h4, hacc]
      simp

/-- After `gcs_returnFrameBuffer` nothing is checked out. -/
theorem gcs_returnFrameBuffer_processing (gcs : GCS) :
    (gcs_returnFrameBuffer gcs).processingFrameBuffer = none := by
  cases hp : gcs.processingFrameBuffer <;> simp [gcs_returnFrameBuffer, hp]

/-- With nothing checked out `gcs_returnFrameBuffer` does nothing. -/
theorem gcs_returnFrameBuffer_idle (gcs : GCS) (hp : gcs.processingFrameBuffer = none) :
    gcs_returnFrameBuffer gcs = gcs := by
  simp [gcs_returnFrameBuffer, hp]

/-- The pointer `processingFrameBuffer` is left alone by `gcs_onCameraOutput`. -/
theorem gcs_onCameraOutput_processing (gcs : GCS) (buffer : MMAL_BUFFER_HEADER_T) :
    (gcs_onCameraOutput gcs buffer).processingFrameBuffer = gcs.processingFrameBuffer := by
  by_cases hacc : gcs.started ≠ 0 ∧ buffer.length ≠ 0 ∧ buffer.data ≠ none
  · rw [gcs_onCameraOutput_accepted gcs buffer hacc.1 hacc.2.1 hacc.2.2]
  · have h2 : buffer.length = 0 ∨ buffer.data = none ∨ gcs.started = 0 := by
      by_contra hcon
      push_neg at hcon
      exact hacc ⟨hcon.2.2, hcon.1, hcon.2.1⟩
    rw [gcs_onCameraOutput_rejected gcs buffer h2]

/-- While nothing is checked out, a call that is not a successful request leaves
nothing checked out. -/
theorem step_processing_none (gcs : GCS) (op : Op)
    (hp : gcs.processingFrameBuffer = none)
    (hop : (op == Op.requestFrameBuffer && requestSucceeds gcs) = false) :
    (step gcs op).processingFrameBuffer = none := by
  cases op with
  | onCameraOutput buffer =>
    simp only [step]
    rw [gcs_onCameraOutput_processing, hp]
  | requestFrameBuffer =>
    have hreq : requestSucceeds gcs = false := by simpa using hop
    cases hm : gcs.frameReadyMutex <;> cases hc : gcs.curFrameBuffer <;>
      simp [step, requestSucceeds, gcs_requestFrameBuffer, vcos_mutex_lock, hm, hp, hc] at hreq ⊢
  | returnFrameBuffer =>
    simp only [step]
    exact gcs_returnFrameBuffer_processing gcs
  | stop =>
    simp only [step]
    rw [gcs_stop_eq]
    exact hp

/-- While nothing is checked out, a sequence of calls without a successful
request leaves nothing checked out. -/
theorem run_processing_none (ops : List Op) :
    ∀ gcs : GCS, gcs.processingFrameBuffer = none → noSuccessfulRequest gcs ops = true →
      (run gcs ops).processingFrameBuffer = none := by
  induction ops with
  | nil => intro gcs hp _; exact hp
  | cons op ops ih =>
    intro gcs hp hno
    simp only [noSuccessfulRequest, Bool.and_eq_true, Bool.not_eq_true'] at hno
    have h1 := step_processing_none gcs op hp hno.1
    simpa [run] using ih (step gcs op) h1 hno.2

/-- One call changes the number of releases of a header plus the number of slot
pointers that hold it by exactly the number of times the call delivers it. -/
theorem step_conserves (gcs : GCS) (op : Op) (b : Nat) :
    (step gcs op).released.count b + held (step gcs op) b =
      gcs.released.count b + held gcs b + (delivered [op]).count b := by
  cases op with
  | onCameraOutput buffer =>
    simp only [step, delivered]
    by_cases hacc : gcs.started ≠ 0 ∧ buffer.length ≠ 0 ∧ buffer.data ≠ none
    · rw [gcs_onCameraOutput_accepted gcs buffer hacc.1 hacc.2.1 hacc.2.2]
      cases hc : gcs.curFrameBuffer with
      | none =>
        simp only [held, hc, Option.toList, List.append_nil, List.count_cons, List.count_nil]
        simp only [Option.some.injEq, beq_iff_eq]
        split_ifs <;> simp_all
      | some c =>
        simp only [held, hc, Option.toList, List.count_append, List.count_cons, List.count_nil]
        simp only [Option.some.injEq, beq_iff_eq]
        split_ifs <;> simp_all
    · have h2 : buffer.length = 0 ∨ buffer.data = none ∨ gcs.started = 0 := by
        by_contra hcon
        push_neg at hcon
        exact hacc ⟨hcon.2.2, hcon.1, hcon.2.1⟩
      rw [gcs_onCameraOutput_rejected gcs buffer h2]
      simp only [held, List.count_append, List.count_cons, List.count_nil]
      omega
  | requestFrameBuffer =>
    cases hm : gcs.frameReadyMutex <;> cases hp : gcs.processingFrameBuffer <;>
      cases hc : gcs.curFrameBuffer <;>
      simp [step, delivered, held, gcs_requestFrameBuffer, vcos_mutex_lock, hm, hp, hc]
  | returnFrameBuffer =>
    cases hp : gcs.processingFrameBuffer with
    | none => simp [step, delivered, gcs_returnFrameBuffer, hp]
    | some p =>
      simp only [step, delivered, gcs_returnFrameBuffer, hp, mmal_buffer_header_release, held,
        List.count_append, List.count_cons, List.count_nil]
      simp only [Option.some.injEq, beq_iff_eq]
      split_ifs <;> simp_all
  | stop =>
    simp only [step, delivered]
    rw [gcs_stop_eq]
    simp [held]

/-- One call keeps the two slot pointers apart, when a completion does not
deliver a header that the stream holds. -/
theorem step_slotDistinct (gcs : GCS) (op : Op) (hd : slotDistinct gcs)
    (hf : deliveriesNotHeld gcs [op] = true) : slotDistinct (step gcs op) := by
  cases op with
  | onCameraOutput buffer =>
    simp only [deliveriesNotHeld, Bool.and_true, decide_eq_true_eq, held] at hf
    have hproc : gcs.processingFrameBuffer ≠ some buffer.addr := by
      intro h; rw [if_pos h] at hf; omega
    simp only [step]
    by_cases hacc : gcs.started ≠ 0 ∧ buffer.length ≠ 0 ∧ buffer.data ≠ none
    · rw [gcs_onCameraOutput_accepted gcs buffer hacc.1 hacc.2.1 hacc.2.2]
      exact Or.inr (fun h => hproc h.symm)
    · have h2 : buffer.length = 0 ∨ buffer.data = none ∨ gcs.started = 0 := by
        by_contra hcon
        push_neg at hcon
        exact hacc ⟨hcon.2.2, hcon.1, hcon.2.1⟩
      rw [gcs_onCameraOutput_rejected gcs buffer h2]
      exact hd
  | requestFrameBuffer =>
    unfold slotDistinct at hd ⊢
    cases hm : gcs.frameReadyMutex <;> cases hp : gcs.processingFrameBuffer <;>
      cases hc : gcs.curFrameBuffer <;>
      simp_all [step, gcs_requestFrameBuffer, vcos_mutex_lock]
  | returnFrameBuffer =>
    unfold slotDistinct at hd ⊢
    cases hp : gcs.processingFrameBuffer <;> cases hc : gcs.curFrameBuffer <;>
      simp_all [step, gcs_returnFrameBuffer, mmal_buffer_header_release]
  | stop =>
    simp only [step]
    rw [gcs_stop_eq]
    exact hd

/-- The count of deliveries splits over the first call and the rest. -/
theorem delivered_cons_count (op : Op) (ops : List Op) (b : Nat) :
    (delivered (op :: ops)).count b = (delivered [op]).count b + (delivered ops).count b := by
  cases op <;> simp [delivered, List.count_cons]
  omega

/-- A prefix of a sequence whose completions deliver headers that are not held
has the same property. -/
theorem deliveriesNotHeld_take (ops : List Op) :
    ∀ (gcs : GCS) (n : Nat), deliveriesNotHeld gcs ops = true →
      deliveriesNotHeld gcs (ops.take n) = true := by
  induction ops with
  | nil => intro gcs n h; simpa using h
  | cons op ops ih =>
    intro gcs n h
    cases n with
    | zero => rfl
    | succ n =>
      simp only [deliveriesNotHeld, Bool.and_eq_true] at h
      simp only [List.take_succ_cons, deliveriesNotHeld, Bool.and_eq_true]
      exact ⟨h.1, ih (step gcs op) n h.2⟩

/-- Conservation over a whole sequence of calls. -/
theorem run_conserves (ops : List Op) :
    ∀ gcs : GCS, slotDistinct gcs → deliveriesNotHeld gcs ops = true → ∀ b : Nat,
      (run gcs ops).released.count b + held (run gcs ops) b =
        gcs.released.count b + held gcs b + (delivered ops).count b ∧
      slotDistinct (run gcs ops) := by
  induction ops with
  | nil =>
    intro gcs hd _ b
    exact ⟨by simp [run, delivered], hd⟩
  | cons op ops ih =>
    intro gcs hd hf b
    simp only [deliveriesNotHeld, Bool.and_eq_true] at hf
    have hf1 : deliveriesNotHeld gcs [op] = true := by
      simp only [deliveriesNotHeld, Bool.and_true]
      exact hf.1
    have hd1 := step_slotDistinct gcs op hd hf1
    obtain ⟨hcount, hdist⟩ := ih (step gcs op) hd1 hf.2 b
    have hrun : run gcs (op :: ops) = run (step gcs op) ops := by simp [run]
    rw [hrun]
    refine ⟨?_, hdist⟩
    rw [hcount, step_conserves gcs op b, delivered_cons_count op ops b]
    omega

/-- When the slot pointers are apart, a header is held by at most one of them. -/
theorem held_le_one (gcs : GCS) (hd : slotDistinct gcs) (b : Nat) : held gcs b ≤ 1 := by
  unfold held
  unfold slotDistinct at hd
  split_ifs with h1 h2
  · rcases hd with hd | hd
    · rw [hd] at h1; cases h1
    · exact absurd (h1.trans h2.symm) hd
  · omega
  · omega
  · omega

/-! ## Claims about single calls -/

/-- C5. Zero-length/null rejection: in every stream state, a completion with
length 0 or a null data pointer leaves `curFrameBuffer` and
`processingFrameBuffer` as they were, and the call releases that buffer to the
pool exactly once (the release record grows by that buffer and nothing else). -/
theorem c5_rejected_completion_recycled (gcs : GCS) (buffer : MMAL_BUFFER_HEADER_T)
    (h : buffer.length = 0 ∨ buffer.data = none) :
    (gcs_onCameraOutput gcs buffer).curFrameBuffer = gcs.curFrameBuffer ∧
    (gcs_onCameraOutput gcs buffer).processingFrameBuffer = gcs.processingFrameBuffer ∧
    (gcs_onCameraOutput gcs buffer).released = gcs.released ++ [buffer.addr] := by
  have h2 : buffer.length = 0 ∨ buffer.data = none ∨ gcs.started = 0 := by
    rcases h with h | h
    · exact Or.inl h
    · exact Or.inr (Or.inl h)
  rw [gcs_onCameraOutput_rejected gcs buffer h2]
  exact ⟨rfl, rfl, rfl⟩

/-- C5 at a concrete input: a zero-length completion in header 7 arrives while
header 1 is current and header 2 is with the user. -/
theorem c5_rejected_completion_recycled_witness :
    (gcs_onCameraOutput slotHeld { addr := 7, length := 0, data := some 4096 }).curFrameBuffer
      = some 1 ∧
    (gcs_onCameraOutput slotHeld { addr := 7, length := 0, data := some 4096 }).processingFrameBuffer
      = some 2 ∧
    (gcs_onCameraOutput slotHeld { addr := 7, length := 0, data := some 4096 }).released
      = [] ++ [7] :=
  c5_rejected_completion_recycled slotHeld { addr := 7, length := 0, data := some 4096 }
    (Or.inl rfl)

/-- C10. Watchdog rearm on accepted frames only: `gcs_onCameraOutput` leaves the
watchdog timer set to `GCS_WATCHDOG_TIMEOUT_MS`, which is 4000 ms, when the
completion is accepted (stream started, length not 0, data not NULL), and leaves
the timer as it was when the completion is rejected. -/
theorem c10_watchdog_rearmed_iff_accepted (gcs : GCS) (buffer : MMAL_BUFFER_HEADER_T) :
    GCS_WATCHDOG_TIMEOUT_MS = 4000 ∧
    (gcs_onCameraOutput gcs buffer).watchdogTimer =
      if gcs.started ≠ 0 ∧ buffer.length ≠ 0 ∧ buffer.data ≠ none then
        some GCS_WATCHDOG_TIMEOUT_MS
      else gcs.watchdogTimer := by
  refine ⟨rfl, ?_⟩
  by_cases hacc : gcs.started ≠ 0 ∧ buffer.length ≠ 0 ∧ buffer.data ≠ none
  · rw [if_pos hacc, gcs_onCameraOutput_accepted gcs buffer hacc.1 hacc.2.1 hacc.2.2]
  · rw [if_neg hacc]
    have h2 : buffer.length = 0 ∨ buffer.data = none ∨ gcs.started = 0 := by
      by_contra hcon
      push_neg at hcon
      exact hacc ⟨hcon.2.2, hcon.1, hcon.2.1⟩
    rw [gcs_onCameraOutput_rejected gcs buffer h2]

/-- C7, as the code has it. For every stream state, after `gcs_onWatchdogTrigger`
the stream is stopped (`started` is 0) and the watchdog is cancelled; the flag
`error` keeps the value it had, the callback does not set it. -/
theorem c7_watchdog_trigger_stops_keeps_error (gcs : GCS) :
    (gcs_onWatchdogTrigger gcs).started = 0 ∧
    (gcs_onWatchdogTrigger gcs).watchdogTimer = none ∧
    (gcs_onWatchdogTrigger gcs).error = gcs.error := by
  unfold gcs_onWatchdogTrigger
  rw [gcs_stop_eq]
  exact ⟨rfl, rfl, rfl⟩

/-- C7 as stated fails: on a started stream whose `error` flag is clear, the
watchdog callback leaves the flag clear. -/
theorem c7_error_flag_not_set :
    startedStream.started ≠ 0 ∧ startedStream.error = 0 ∧
    ¬ ((gcs_onWatchdogTrigger startedStream).started = 0 ∧
       (gcs_onWatchdogTrigger startedStream).error ≠ 0) := by
  decide

/-- C6 on the code: `gcs_stop` on a started stream that holds header 1 as current
frame and header 2 as the frame with the user clears `started`, and leaves both
pointers set, `gcs_hasFrameBuffer` true and the release record unchanged. -/
theorem c6_stop_leaves_frame_slot :
    slotHeld.started ≠ 0 ∧
    (gcs_stop slotHeld).started = 0 ∧
    (gcs_stop slotHeld).curFrameBuffer = some 1 ∧
    (gcs_stop slotHeld).processingFrameBuffer = some 2 ∧
    gcs_hasFrameBuffer (gcs_stop slotHeld) = true ∧
    (gcs_stop slotHeld).released = slotHeld.released := by
  decide

/-- C9 on the code: on a started stream with `frameReadyMutex` locked, where
`gcs_requestFrameBuffer` waits, `gcs_stop` leaves the mutex locked and
`gcs_requestFrameBuffer` still waits afterwards. -/
theorem c9_stop_leaves_mutex_locked :
    userWaiting.started ≠ 0 ∧
    userWaiting.frameReadyMutex = true ∧
    gcs_requestFrameBuffer userWaiting = none ∧
    (gcs_stop userWaiting).frameReadyMutex = true ∧
    gcs_requestFrameBuffer (gcs_stop userWaiting) = none := by
  decide

/-- C3, as the code has it. For every state in which a frame is checked out
(`processingFrameBuffer` is not NULL): when `frameReadyMutex` is free, a
further `gcs_requestFrameBuffer` returns NULL and leaves `curFrameBuffer` and
`processingFrameBuffer` unchanged (it changes nothing but the mutex, which it
locks); when `frameReadyMutex` is locked, the call waits for it and returns
nothing in that state. -/
theorem c3_second_request_busy_when_mutex_free (gcs : GCS)
    (h : gcs.processingFrameBuffer ≠ none) :
    (gcs.frameReadyMutex = false →
      ∃ gcs2, gcs_requestFrameBuffer gcs = some (none, gcs2) ∧
        gcs2.curFrameBuffer = gcs.curFrameBuffer ∧
        gcs2.processingFrameBuffer = gcs.processingFrameBuffer ∧
        gcs2 = { gcs with frameReadyMutex := true }) ∧
    (gcs.frameReadyMutex = true → gcs_requestFrameBuffer gcs = none) := by
  obtain ⟨p, hp⟩ := Option.ne_none_iff_exists'.mp h
  constructor
  · intro hm
    refine ⟨{ gcs with frameReadyMutex := true }, ?_, rfl, rfl, rfl⟩
    simp [gcs_requestFrameBuffer, vcos_mutex_lock, hm, hp]
  · intro hm
    simp [gcs_requestFrameBuffer, vcos_mutex_lock, hm]

/-- C3 at a concrete input: header 2 is with the user, header 1 is current and
the mutex is free. -/
theorem c3_second_request_busy_when_mutex_free_witness :
    ∃ gcs2, gcs_requestFrameBuffer slotHeld = some (none, gcs2) ∧
      gcs2.curFrameBuffer = slotHeld.curFrameBuffer ∧
      gcs2.processingFrameBuffer = slotHeld.processingFrameBuffer ∧
      gcs2 = { slotHeld with frameReadyMutex := true } :=
  (c3_second_request_busy_when_mutex_free slotHeld (by decide)).1 (by decide)

/-- C3 as stated fails: a first request on a started stream that holds header 1
returns header 1 and leaves the state `frameCheckedOut`, a frame is checked out
there, and a second request in that state waits instead of returning NULL. -/
theorem c3_second_request_waits :
    gcs_requestFrameBuffer { startedStream with curFrameBuffer := some 1 }
      = some (some 1, frameCheckedOut) ∧
    frameCheckedOut.processingFrameBuffer ≠ none ∧
    gcs_requestFrameBuffer frameCheckedOut = none := by
  decide

/-! ## Most recent frame wins -/

/-- C1, as the code has it. On a started stream with no frame checked out
(`processingFrameBuffer` is NULL), after every non-empty sequence of valid
completions (length not 0, data not NULL) with no request in between,
`gcs_requestFrameBuffer` returns the last buffer of the sequence, and the
releases made since the start of the sequence are, in order, the buffer that was
current before it (if any) and the earlier buffers of the sequence: each of
those once, the last buffer not at all. When the addresses involved are pairwise
distinct, each of those buffers therefore occurs exactly once among these
releases and the last buffer does not occur. -/
theorem c1_most_recent_frame_wins (gcs : GCS) (buffers : List MMAL_BUFFER_HEADER_T)
    (hne : buffers ≠ []) (hs : gcs.started ≠ 0)
    (hv : ∀ b ∈ buffers, b.length ≠ 0 ∧ b.data ≠ none)
    (hp : gcs.processingFrameBuffer = none) :
    ∃ gcs2, gcs_requestFrameBuffer (deliver gcs buffers)
        = some (some (buffers.getLast hne).addr, gcs2) ∧
      gcs2.released =
        gcs.released ++ (gcs.curFrameBuffer.toList ++ buffers.dropLast.map (·.addr)) ∧
      ((gcs.curFrameBuffer.toList ++ buffers.map (·.addr)).Nodup →
        (∀ a ∈ gcs.curFrameBuffer.toList ++ buffers.dropLast.map (·.addr),
          (gcs.curFrameBuffer.toList ++ buffers.dropLast.map (·.addr)).count a = 1) ∧
        (gcs.curFrameBuffer.toList ++ buffers.dropLast.map (·.addr)).count
          (buffers.getLast hne).addr = 0) := by
  have hsplit : buffers.dropLast ++ [buffers.getLast hne] = buffers :=
    List.dropLast_append_getLast hne
  have hv2 : ∀ b ∈ buffers.dropLast ++ [buffers.getLast hne],
      b.length ≠ 0 ∧ b.data ≠ none := by
    rw [hsplit]; exact hv
  obtain ⟨h1, h2, h3, h4⟩ := deliver_accepted buffers.dropLast (buffers.getLast hne) gcs hs hv2
  rw [hsplit] at h1 h2 h3 h4
  refine ⟨_, gcs_requestFrameBuffer_frame _ _ h3 (h2.trans hp) h1, h4, ?_⟩
  intro hnd
  have hmap : buffers.map (·.addr) =
      buffers.dropLast.map (·.addr) ++ [(buffers.getLast hne).addr] := by
    conv_lhs => rw [← hsplit]
    simp
  rw [hmap, ← List.append_assoc] at hnd
  have hnd1 := (List.nodup_append.mp hnd).1
  constructor
  · intro a ha
    exact List.count_eq_one_of_mem hnd1 ha
  · apply List.count_eq_zero_of_not_mem
    intro hmem
    exact (List.nodup_append.mp hnd).2.2 hmem (by simp)

/-- C1 at a concrete input: header 9 is current, then frames arrive in headers 1,
2 and 3; the request returns header 3 and headers 9, 1, 2 have been released. -/
theorem c1_most_recent_frame_wins_witness :
    ∃ gcs2, gcs_requestFrameBuffer
        (deliver { startedStream with curFrameBuffer := some 9 } [frame 1, frame 2, frame 3])
        = some (some 3, gcs2) ∧
      gcs2.released = [] ++ ([9] ++ [1, 2]) ∧
      (([9] ++ [1, 2, 3]).Nodup →
        (∀ a ∈ [9] ++ [1, 2], ([9] ++ [1, 2]).count a = 1) ∧
        ([9] ++ [1, 2]).count 3 = 0) :=
  c1_most_recent_frame_wins { startedStream with curFrameBuffer := some 9 }
    [frame 1, frame 2, frame 3] (by decide) (by decide) (by decide) rfl

/-- C1 as stated fails: on a started stream where header 9 is checked out, after
the valid completion in header 1 the request returns NULL, not header 1. -/
theorem c1_request_busy_after_completion :
    ({ startedStream with processingFrameBuffer := some 9 } : GCS).started ≠ 0 ∧
    (frame 1).length ≠ 0 ∧ (frame 1).data ≠ none ∧
    (gcs_requestFrameBuffer
      (deliver { startedStream with processingFrameBuffer := some 9 } [frame 1])).map Prod.fst
      = some none := by
  decide

/-! ## Release protocol and conservation -/

/-- C4. No double-release: in every state, once `gcs_returnFrameBuffer` has been
called, a second call changes nothing (it releases no buffer and leaves
`curFrameBuffer`, `processingFrameBuffer` and every other field as they were),
both directly after the first call and after any sequence of calls in between
in which no `gcs_requestFrameBuffer` hands out a frame. -/
theorem c4_second_return_changes_nothing (gcs : GCS) (ops : List Op)
    (hno : noSuccessfulRequest (gcs_returnFrameBuffer gcs) ops = true) :
    gcs_returnFrameBuffer (gcs_returnFrameBuffer gcs) = gcs_returnFrameBuffer gcs ∧
    gcs_returnFrameBuffer (run (gcs_returnFrameBuffer gcs) ops)
      = run (gcs_returnFrameBuffer gcs) ops := by
  constructor
  · exact gcs_returnFrameBuffer_idle _ (gcs_returnFrameBuffer_processing gcs)
  · exact gcs_returnFrameBuffer_idle _
      (run_processing_none ops _ (gcs_returnFrameBuffer_processing gcs) hno)

/-- C4 at a concrete input: header 2 is returned, then a frame arrives in header
3, a request waits or fails, the stream is stopped, and the second return finds
the state as those calls left it. -/
theorem c4_second_return_changes_nothing_witness :
    gcs_returnFrameBuffer (gcs_returnFrameBuffer { slotHeld with frameReadyMutex := true })
      = gcs_returnFrameBuffer { slotHeld with frameReadyMutex := true } ∧
    gcs_returnFrameBuffer
        (run (gcs_returnFrameBuffer { slotHeld with frameReadyMutex := true })
          [Op.requestFrameBuffer, Op.stop, Op.onCameraOutput (frame 3)])
      = run (gcs_returnFrameBuffer { slotHeld with frameReadyMutex := true })
          [Op.requestFrameBuffer, Op.stop, Op.onCameraOutput (frame 3)] :=
  c4_second_return_changes_nothing { slotHeld with frameReadyMutex := true }
    [Op.requestFrameBuffer, Op.stop, Op.onCameraOutput (frame 3)] (by decide)

/-- C8. Recycling conservation: start from any state whose two slot pointers are
apart, and make any finite sequence of `gcs_onCameraOutput`,
`gcs_requestFrameBuffer`, `gcs_returnFrameBuffer` and `gcs_stop` calls in which
every completion delivers a header the stream does not hold at that moment.
Then at each point of the sequence (after its first `n` calls) and for every
header `b`: the releases of `b` so far plus the slot pointers holding `b` equal
the releases and holdings at the start plus the deliveries of `b` so far, so that
each delivery is answered by exactly one release unless the header is still
held; `b` is held by at most one of the two pointers; and `curFrameBuffer` and
`processingFrameBuffer` do not refer to the same header. -/
theorem c8_recycling_conservation (gcs : GCS) (ops : List Op)
    (hd : slotDistinct gcs) (hf : deliveriesNotHeld gcs ops = true) (n : Nat) (b : Nat) :
    (run gcs (ops.take n)).released.count b + held (run gcs (ops.take n)) b =
      gcs.released.count b + held gcs b + (delivered (ops.take n)).count b ∧
    held (run gcs (ops.take n)) b ≤ 1 ∧
    slotDistinct (run gcs (ops.take n)) := by
  obtain ⟨hcount, hdist⟩ :=
    run_conserves (ops.take n) gcs hd (deliveriesNotHeld_take ops gcs n hf) b
  exact ⟨hcount, held_le_one _ hdist b, hdist⟩

/-- C8 at a concrete input: frames arrive in headers 1 and 2, header 2 is
requested, a frame arrives in header 3, header 2 is returned and delivered
again, the stream is stopped and a request is made; the balance is taken for
header 2 after the first six calls. -/
theorem c8_recycling_conservation_witness :
    (run startedStream
        ([Op.onCameraOutput (frame 1), Op.onCameraOutput (frame 2), Op.requestFrameBuffer,
          Op.onCameraOutput (frame 3), Op.returnFrameBuffer, Op.onCameraOutput (frame 2),
          Op.stop, Op.requestFrameBuffer].take 6)).released.count 2 +
      held (run startedStream
        ([Op.onCameraOutput (frame 1), Op.onCameraOutput (frame 2), Op.requestFrameBuffer,
          Op.onCameraOutput (frame 3), Op.returnFrameBuffer, Op.onCameraOutput (frame 2),
          Op.stop, Op.requestFrameBuffer].take 6)) 2 =
      startedStream.released.count 2 + held startedStream 2 +
        (delivered
          ([Op.onCameraOutput (frame 1), Op.onCameraOutput (frame 2), Op.requestFrameBuffer,
            Op.onCameraOutput (frame 3), Op.returnFrameBuffer, Op.onCameraOutput (frame 2),
            Op.stop, Op.requestFrameBuffer].take 6)).count 2 ∧
    held (run startedStream
        ([Op.onCameraOutput (frame 1), Op.onCameraOutput (frame 2), Op.requestFrameBuffer,
          Op.onCameraOutput (frame 3), Op.returnFrameBuffer, Op.onCameraOutput (frame 2),
          Op.stop, Op.requestFrameBuffer].take 6)) 2 ≤ 1 ∧
    slotDistinct (run startedStream
        ([Op.onCameraOutput (frame 1), Op.onCameraOutput (frame 2), Op.requestFrameBuffer,
          Op.onCameraOutput (frame 3), Op.returnFrameBuffer, Op.onCameraOutput (frame 2),
          Op.stop, Op.requestFrameBuffer].take 6)) :=
  c8_recycling_conservation startedStream
    [Op.onCameraOutput (frame 1), Op.onCameraOutput (frame 2), Op.requestFrameBuffer,
      Op.onCameraOutput (frame 3), Op.returnFrameBuffer, Op.onCameraOutput (frame 2),
      Op.stop, Op.requestFrameBuffer]
    (by decide) (by decide) 6 2

/-! ## The end-to-end scenario -/

/-- C2 on the code. From a freshly created stream whose flags are zero:
`gcs_start` returns 0 and leaves `started` at 0, so the three valid completions
in headers 1, 2, 3 are all released at once, `gcs_hasFrameBuffer` is false and
`gcs_requestFrameBuffer` returns NULL instead of header 3. Had the memory of the
flag `started` held 1, the request would return header 3 with headers 1 and 2
released, but after `gcs_returnFrameBuffer` and `gcs_stop` the last
`gcs_requestFrameBuffer` would wait on the mutex that the first request locked
instead of returning NULL. -/
theorem c2_scenario_on_the_code :
    ((gcs_start (createdStream 0 0 4)).1 = 0 ∧
      (gcs_start (createdStream 0 0 4)).2.started = 0 ∧
      gcs_hasFrameBuffer
        (deliver (gcs_start (createdStream 0 0 4)).2 [frame 1, frame 2, frame 3]) = false ∧
      (deliver (gcs_start (createdStream 0 0 4)).2 [frame 1, frame 2, frame 3]).released
        = [1, 2, 3] ∧
      (gcs_requestFrameBuffer
        (deliver (gcs_start (createdStream 0 0 4)).2 [frame 1, frame 2, frame 3])).map Prod.fst
        = some none) ∧
    (gcs_hasFrameBuffer
        (deliver (gcs_start (createdStream 1 0 4)).2 [frame 1, frame 2, frame 3]) = true ∧
      (gcs_requestFrameBuffer
        (deliver (gcs_start (createdStream 1 0 4)).2 [frame 1, frame 2, frame 3])).map Prod.fst
        = some (some 3) ∧
      ((gcs_requestFrameBuffer
        (deliver (gcs_start (createdStream 1 0 4)).2 [frame 1, frame 2, frame 3])).map
          (fun r => r.2.released)) = some [1, 2] ∧
      gcs_requestFrameBuffer
        (run (deliver (gcs_start (createdStream 1 0 4)).2 [frame 1, frame 2, frame 3])
          [Op.requestFrameBuffer, Op.returnFrameBuffer, Op.stop]) = none) := by
  decide

end VC6CV
